import Mathlib

/-!
Shallow embedding of pyGPs/Core/lik.py, the likelihood-function layer of the
pyGPs Gaussian-process toolbox, together with a verification of the behaviour
of its four likelihoods (Gauss, Erf, Logistic, Laplace) in the four inference
modes (prediction, Laplace, EP, VB).

Modelling conventions:
* numpy float64 arrays are modelled as `List ℝ` (`Arr`); elementwise numpy
  operations become `List.map` / `List.zipWith`; floating-point rounding is
  ignored (everything is exact real arithmetic).
* the idiom `if y == None:` / `if not s2 == None:` used throughout the source
  is modelled as a test for absence of the optional argument, which is its
  evident intent; optional array arguments are `Option Arr`.
* Python exceptions are modelled by `Except PyErr`.  A method body that falls
  off its end returns Python `None`, modelled as `Except.ok none`;
  `return a, b` is `Except.ok (some [a, b])`; `return []` (the derivative-mode
  placeholder of the classification likelihoods) is `Except.ok (some [])`;
  returning one bare array is `Except.ok (some [a])`.
* `nargout` (the requested result width) is a `ℕ` argument `k`.
* Python's builtin `max(0, s)` / `min(0, f)` applied to a numpy array takes
  the truth value of an elementwise comparison, which raises ValueError
  unless the array has exactly one element; an `np.reshape` of mismatched
  size raises ValueError; indexing past the end of an array raises
  IndexError; reading a local that was assigned on no executed path raises
  NameError; calling a constructor with an unknown keyword raises TypeError.
* scipy's `erf` is the mathematical error function, defined below by its
  integral; it is never evaluated numerically in this development.
-/

open Real

set_option linter.unusedVariables false

noncomputable section

/-- Python exception kinds raised by the embedded code: NameError, TypeError,
IndexError, ValueError, AttributeError. -/
inductive PyErr
  | nameE | typeE | indexE | valueE | attrE
deriving DecidableEq

/-- A numpy array of float64, modelled as a list of reals. -/
abbrev Arr := List ℝ

/-- Result of one `proceed` call: an exception, Python `None`, or a tuple of
sequences. -/
abbrev LikRet := Except PyErr (Option (List Arr))

/-- Inference-mode tag (the `inffunc` argument): absent (prediction mode),
`inf.Laplace`, `inf.EP`, `inf.VB`. -/
inductive InfMode
  | pred | lap | ep | vb
deriving DecidableEq

/-- scipy.special.erf, the Gauss error function. -/
def erf (x : ℝ) : ℝ := 2 / Real.sqrt π * ∫ t in (0:ℝ)..x, Real.exp (-(t ^ 2))

/-- scipy.special.erfc. -/
def erfc (t : ℝ) : ℝ := 1 - erf t

/-- Elementwise combination of three equal-length arrays. -/
def zip3With (f : ℝ → ℝ → ℝ → ℝ) : Arr → Arr → Arr → Arr
  | a :: as, b :: bs, c :: cs => f a b c :: zip3With f as bs cs
  | _, _, _ => []

/-- The `s2 == None or norm(s2) == 0` test of prediction mode (lines
145-147, 258-261, 396-399, 533-536): `s2` counts as zero when absent or when
no element is nonzero. -/
def s2zero : Option Arr → Bool
  | none => true
  | some l => !(l.any (fun x => decide (x ≠ 0)))

/-- First component of a returned tuple (used for the prediction-mode
self-call `lp = self.proceed(y, mu, s2, inf.EP())`, which asks for width 1
and receives one bare array). -/
def firstArr : Option (List Arr) → Arr
  | some (a :: _) => a
  | _ => []

/-- np.sign on a real scalar. -/
def npSign (t : ℝ) : ℝ := if t < 0 then -1 else if t = 0 then 0 else 1

/-- `y = np.sign(y); y[y==0] = 1` (lines 251-253 and 388-390): the target
normalisation of the classification likelihoods. -/
def signFix (t : ℝ) : ℝ := if npSign t = 0 then 1 else npSign t

/-- Normalised classification targets: an absent `y` means the +1 label
(broadcast against `mu`); a present `y` is replaced elementwise by its sign,
with zeros mapped to +1. -/
def normY (mu : Arr) : Option Arr → Arr
  | none => List.replicate mu.length 1
  | some l => l.map signFix

/-! ### Gauss (lines 128-237) -/

/-- Exact Gaussian log likelihood, line 149:
`-(y-mu)**2 /sn2/2 - np.log(2.*np.pi*sn2)/2.` -/
def gaussExact_lp (sn2 y mu : ℝ) : ℝ :=
  -(y - mu) ^ 2 / sn2 / 2 - Real.log (2 * π * sn2) / 2

/-- Gauss EP log-partition function, line 166. -/
def gaussEP_lZ (sn2 y mu s2 : ℝ) : ℝ :=
  -(y - mu) ^ 2 / (sn2 + s2) / 2 - Real.log (2 * π * (sn2 + s2)) / 2

/-- Line 168: first derivative of log Z w.r.t. the mean. -/
def gaussEP_dlZ (sn2 y mu s2 : ℝ) : ℝ := (y - mu) / (sn2 + s2)

/-- Line 170: second derivative of log Z w.r.t. the mean. -/
def gaussEP_d2lZ (sn2 y mu s2 : ℝ) : ℝ := -1 / (sn2 + s2)

/-- Line 177: EP derivative mode, derivative w.r.t. the hyperparameter. -/
def gaussEP_dlZhyp (sn2 y mu s2 : ℝ) : ℝ :=
  ((y - mu) ^ 2 / (sn2 + s2) - 1) / (1 + s2 / sn2)

/-- Line 184, the Laplace-mode log likelihood of Gauss. -/
def gaussLap_lp (sn2 y mu : ℝ) : ℝ :=
  -(y - mu) ^ 2 / (2 * sn2) - Real.log (2 * π * sn2) / 2

/-- Line 186. -/
def gaussLap_dlp (sn2 y mu : ℝ) : ℝ := (y - mu) / sn2

/-- Line 188. -/
def gaussLap_d2lp (sn2 y mu : ℝ) : ℝ := -1 / sn2

/-- Line 190. -/
def gaussLap_d3lp (sn2 y mu : ℝ) : ℝ := 0

/-- Lines 199-201, Laplace derivative mode. -/
def gaussLap_lp_dhyp (sn2 y mu : ℝ) : ℝ := (y - mu) ^ 2 / sn2 - 1

def gaussLap_dlp_dhyp (sn2 y mu : ℝ) : ℝ := 2 * (mu - y) / sn2

def gaussLap_d2lp_dhyp (sn2 y mu : ℝ) : ℝ := 2 / sn2

/-- Log probabilities of Gauss prediction mode (lines 148-153): exact when
`s2` counts as zero, otherwise the EP self-call at width 1. -/
def Gauss.pred_lpArr (sn2 : ℝ) (y0 mu : Arr) (s2 : Option Arr) : Arr :=
  if s2zero s2 then List.zipWith (gaussExact_lp sn2) y0 mu
  else zip3With (gaussEP_lZ sn2) y0 mu (s2.getD [])

/-- Second moment of Gauss prediction mode (line 157): in the `s2zero`
branch `s2` was reassigned to zeros, so `ys2 = s2 + sn2` is constant. -/
def Gauss.pred_ys2 (sn2 : ℝ) (mu : Arr) (s2 : Option Arr) : Arr :=
  if s2zero s2 then List.replicate mu.length sn2
  else (s2.getD []).map (fun v => v + sn2)

/-- Prediction-mode branch of Gauss.proceed (lines 142-162). -/
def Gauss.predMode (sn2 : ℝ) (y0 mu : Arr) (s2 : Option Arr) (k : ℕ) : LikRet :=
  Except.ok (some (if 1 < k then
      (if 2 < k then [Gauss.pred_lpArr sn2 y0 mu s2, mu, Gauss.pred_ys2 sn2 mu s2]
       else [Gauss.pred_lpArr sn2 y0 mu s2, mu])
    else [Gauss.pred_lpArr sn2 y0 mu s2]))

/-- EP-mode (no derivative) branch of Gauss.proceed, lines 164-175.  The
branch needs both `y` and `s2` present: with either absent, `y - mu`
resp. `sn2 + s2` raises TypeError on `None`. -/
def Gauss.epMode (sn2 : ℝ) (y : Option Arr) (mu : Arr) (s2 : Option Arr) (k : ℕ) : LikRet :=
  match y, s2 with
  | some ys, some l =>
      Except.ok (some (if 1 < k then
          (if 2 < k then
            [zip3With (gaussEP_lZ sn2) ys mu l, zip3With (gaussEP_dlZ sn2) ys mu l,
              zip3With (gaussEP_d2lZ sn2) ys mu l]
          else [zip3With (gaussEP_lZ sn2) ys mu l, zip3With (gaussEP_dlZ sn2) ys mu l])
        else [zip3With (gaussEP_lZ sn2) ys mu l]))
  | _, _ => Except.error .typeE

/-- EP derivative mode of Gauss, lines 176-178: one bare array, whatever the
requested width. -/
def Gauss.epDerMode (sn2 : ℝ) (y : Option Arr) (mu : Arr) (s2 : Option Arr) : LikRet :=
  match y, s2 with
  | some ys, some l => Except.ok (some [zip3With (gaussEP_dlZhyp sn2) ys mu l])
  | _, _ => Except.error .typeE

/-- No-derivative Laplace mode of Gauss (lines 180-197), width chain up to
four outputs. -/
def gaussLapNoDer (sn2 : ℝ) (y0 mu : Arr) (k : ℕ) : LikRet :=
  Except.ok (some (if 1 < k then
      (if 2 < k then
        (if 3 < k then
          [List.zipWith (gaussLap_lp sn2) y0 mu, List.zipWith (gaussLap_dlp sn2) y0 mu,
            List.zipWith (gaussLap_d2lp sn2) y0 mu, List.zipWith (gaussLap_d3lp sn2) y0 mu]
        else
          [List.zipWith (gaussLap_lp sn2) y0 mu, List.zipWith (gaussLap_dlp sn2) y0 mu,
            List.zipWith (gaussLap_d2lp sn2) y0 mu])
      else [List.zipWith (gaussLap_lp sn2) y0 mu, List.zipWith (gaussLap_dlp sn2) y0 mu])
    else [List.zipWith (gaussLap_lp sn2) y0 mu]))

/-- Laplace-mode branch of Gauss.proceed, lines 179-202.  In no-derivative
mode an absent `y` is replaced by zero; in derivative mode it is not, so
`y - mu` raises TypeError on `None`.  Derivative mode returns its 3-tuple
whatever the requested width. -/
def Gauss.lapMode (sn2 : ℝ) (y : Option Arr) (mu : Arr) (der : Option ℕ) (k : ℕ) : LikRet :=
  match der with
  | none => gaussLapNoDer sn2 (y.getD (List.replicate mu.length 0)) mu k
  | some _ =>
      match y with
      | some ys =>
          Except.ok (some [List.zipWith (gaussLap_lp_dhyp sn2) ys mu,
            List.zipWith (gaussLap_dlp_dhyp sn2) ys mu,
            List.zipWith (gaussLap_d2lp_dhyp sn2) ys mu])
      | none => Except.error .typeE

/-- Gauss.proceed (lines 140-237).  `lsig` is the hyperparameter
`log_sigma`, `sn2 = exp(2*log_sigma)`.  For `inf.VB` the isinstance chain
matches nothing (the VB block is commented out in the source) and the method
falls off its end, silently returning `None`. -/
def Gauss.proceed (lsig : ℝ) (y : Option Arr) (mu : Arr) (s2 : Option Arr)
    (mode : InfMode) (der : Option ℕ) (k : ℕ) : LikRet :=
  match mode with
  | .pred => Gauss.predMode (Real.exp (2 * lsig)) (y.getD (List.replicate mu.length 0)) mu s2 k
  | .ep =>
      match der with
      | none => Gauss.epMode (Real.exp (2 * lsig)) y mu s2 k
      | some _ => Gauss.epDerMode (Real.exp (2 * lsig)) y mu s2
  | .lap => Gauss.lapMode (Real.exp (2 * lsig)) y mu der k
  | .vb => Except.ok none

/-! ### Erf (lines 240-370) -/

/-- Logistic interpolation weight of Erf.logphi (line 366), with
`zmin = -6.2`, `zmax = -5.5`. -/
def Erf.ipw (z : ℝ) : ℝ :=
  1 / (1 + Real.exp (25 * (0.5 - (z - (-6.2)) / ((-5.5) - (-6.2)))))

/-- The asymptotic branch of Erf.logphi (line 368). -/
def Erf.logphiAsym (z : ℝ) : ℝ :=
  -Real.log π / 2 - z ^ 2 / 2 - Real.log (Real.sqrt (z ^ 2 / 2 + 2) - z / Real.sqrt 2)

/-- Erf.logphi (lines 358-370): numerically-safe log Φ, taking the
precomputed `p = Φ(z)` as second argument. -/
def Erf.logphi (z p : ℝ) : ℝ :=
  if z > -5.5 then Real.log p
  else if z < -6.2 then Erf.logphiAsym z
  else (1 - Erf.ipw z) * Erf.logphiAsym z + Erf.ipw z * Real.log p

/-- Erf.cumGauss (lines 332-343): `p = (1 + erf(yf/sqrt 2))/2`. -/
def Erf.cumGaussP (yf : ℝ) : ℝ := (1 + erf (yf / Real.sqrt 2)) / 2

/-- The standard normal density `phi(f) = exp(-f^2/2)/sqrt(2 pi)` used on
line 349. -/
def gaussDens (f : ℝ) : ℝ := Real.exp (-(f ^ 2) / 2) / Real.sqrt (2 * π)

/-- The tight algebraic upper bound used on line 351. -/
def npBound (f : ℝ) : ℝ := Real.sqrt (f ^ 2 / 4 + 1) - f / 2

/-- Erf.gauOverCumGauss (lines 345-356): safe `phi(f)/Phi(f)` with the
precomputed `p` as second argument.  For `-6 <= f <= -5` the source sets
`lam = -5 - f` and blends `(1-lam)*direct + lam*bound`: the interpolation
weight is linear in `f` (the inline comment says "linearly interpolate"). -/
def Erf.gauOverCumGauss (f p : ℝ) : ℝ :=
  if f > -5 then gaussDens f / p
  else if f < -6 then npBound f
  else (1 - (-5 - f)) * (gaussDens f / p) + (-5 - f) * npBound f

/-- Laplace-mode log likelihood of Erf (line 280 via cumGauss). -/
def Erf.lap_lp (y f : ℝ) : ℝ := Erf.logphi (y * f) (Erf.cumGaussP (y * f))

/-- Line 282: `n_p = gauOverCumGauss(yf, p)`. -/
def Erf.lap_np (y f : ℝ) : ℝ := Erf.gauOverCumGauss (y * f) (Erf.cumGaussP (y * f))

/-- Line 283. -/
def Erf.lap_dlp (y f : ℝ) : ℝ := y * Erf.lap_np y f

/-- Line 285. -/
def Erf.lap_d2lp (y f : ℝ) : ℝ := -(Erf.lap_np y f) ^ 2 - (y * f) * Erf.lap_np y f

/-- Line 287. -/
def Erf.lap_d3lp (y f : ℝ) : ℝ :=
  2 * y * (Erf.lap_np y f) ^ 3 + 3 * f * (Erf.lap_np y f) ^ 2 + y * (f ^ 2 - 1) * Erf.lap_np y f

/-- EP-mode log partition of Erf (lines 300-301): `z = mu/sqrt(1+s2)`,
`lZ = logphi(y*z, Phi(y*z))`. -/
def Erf.ep_lZ (y mu s2 : ℝ) : ℝ :=
  Erf.logphi (y * (mu / Real.sqrt (1 + s2))) (Erf.cumGaussP (y * (mu / Real.sqrt (1 + s2))))

/-- Line 306: `n_p = gauOverCumGauss(z*y, exp(lZ))`. -/
def Erf.ep_np (y mu s2 : ℝ) : ℝ :=
  Erf.gauOverCumGauss (mu / Real.sqrt (1 + s2) * y) (Real.exp (Erf.ep_lZ y mu s2))

/-- Line 307. -/
def Erf.ep_dlZ (y mu s2 : ℝ) : ℝ := y * Erf.ep_np y mu s2 / Real.sqrt (1 + s2)

/-- Line 309. -/
def Erf.ep_d2lZ (y mu s2 : ℝ) : ℝ :=
  -Erf.ep_np y mu s2 * (mu / Real.sqrt (1 + s2) * y + Erf.ep_np y mu s2) / (1 + s2)

/-- Log probabilities of Erf prediction mode (lines 262-266): via cumGauss
when `s2` counts as zero, otherwise via the EP self-call at width 1. -/
def Erf.pred_lpArr (yN mu : Arr) (s2 : Option Arr) : Arr :=
  if s2zero s2 then List.zipWith Erf.lap_lp yN mu
  else zip3With Erf.ep_lZ yN mu (s2.getD [])

/-- The probabilities `p` of Erf prediction mode: from cumGauss directly in
the exact branch (line 263), `p = exp(lp)` in the approximate branch
(line 266). -/
def Erf.pred_pArr (yN mu : Arr) (s2 : Option Arr) : Arr :=
  if s2zero s2 then List.zipWith (fun yi mui => Erf.cumGaussP (yi * mui)) yN mu
  else (Erf.pred_lpArr yN mu s2).map Real.exp

/-- Prediction-mode branch of Erf.proceed (lines 256-275). -/
def Erf.predMode (yN mu : Arr) (s2 : Option Arr) (k : ℕ) : LikRet :=
  Except.ok (some (if 1 < k then
      (if 2 < k then
        [Erf.pred_lpArr yN mu s2, (Erf.pred_pArr yN mu s2).map (fun v => 2 * v - 1),
          (Erf.pred_pArr yN mu s2).map (fun v => 4 * v * (1 - v))]
       else [Erf.pred_lpArr yN mu s2, (Erf.pred_pArr yN mu s2).map (fun v => 2 * v - 1)])
    else [Erf.pred_lpArr yN mu s2]))

/-- Erf.proceed after target normalisation (lines 256-329).  VB matches no
branch of the isinstance chain (the VB block is commented out) and the
method falls off its end, returning `None`; derivative modes return the
empty list `[]`. -/
def Erf.proceedN (yN mu : Arr) (s2 : Option Arr) (mode : InfMode) (der : Option ℕ) (k : ℕ) : LikRet :=
  match mode with
  | .pred => Erf.predMode yN mu s2 k
  | .lap =>
      match der with
      | none =>
          Except.ok (some (if 1 < k then
              (if 2 < k then
                (if 3 < k then
                  [List.zipWith Erf.lap_lp yN mu, List.zipWith Erf.lap_dlp yN mu,
                    List.zipWith Erf.lap_d2lp yN mu, List.zipWith Erf.lap_d3lp yN mu]
                else
                  [List.zipWith Erf.lap_lp yN mu, List.zipWith Erf.lap_dlp yN mu,
                    List.zipWith Erf.lap_d2lp yN mu])
              else [List.zipWith Erf.lap_lp yN mu, List.zipWith Erf.lap_dlp yN mu])
            else [List.zipWith Erf.lap_lp yN mu]))
      | some _ => Except.ok (some [])
  | .ep =>
      match der with
      | none =>
          match s2 with
          | some l =>
              Except.ok (some (if 1 < k then
                  (if 2 < k then
                    [zip3With Erf.ep_lZ yN mu l, zip3With Erf.ep_dlZ yN mu l,
                      zip3With Erf.ep_d2lZ yN mu l]
                  else [zip3With Erf.ep_lZ yN mu l, zip3With Erf.ep_dlZ yN mu l])
                else [zip3With Erf.ep_lZ yN mu l]))
          | none => Except.error .typeE
      | some _ => Except.ok (some [])
  | .vb => Except.ok none

/-- Erf.proceed (lines 250-329): targets are normalised to signs (zeros to
+1) before mode dispatch. -/
def Erf.proceed (y : Option Arr) (mu : Arr) (s2 : Option Arr)
    (mode : InfMode) (der : Option ℕ) (k : ℕ) : LikRet :=
  Erf.proceedN (normY mu y) mu s2 mode der k

/-! ### Logistic (lines 374-511) -/

/-- Stabilised log of the logistic sigmoid, prediction mode lines 401-404:
for `yf > -35`, `lp = -log(1+exp(-yf))`; below the threshold `lp` keeps the
value `yf`. -/
def Logistic.pred_lp (yf : ℝ) : ℝ :=
  if -35 < yf then -Real.log (1 + Real.exp (-yf)) else yf

/-- Laplace-mode stabilised log sigmoid, lines 421-423: with `s = -yf` and
`ps = max(0, s)`, `lp = -(ps + log(exp(-ps) + exp(s-ps)))`. -/
def Logistic.lap_lp (yf : ℝ) : ℝ :=
  -(max (-yf) 0 + Real.log (Real.exp (-max (-yf) 0) + Real.exp (-yf - max (-yf) 0)))

/-- Lines 425-426: with `s = min(0, f)`, `p = exp(s)/(exp(s)+exp(s-f))`. -/
def Logistic.lap_p (f : ℝ) : ℝ :=
  Real.exp (min f 0) / (Real.exp (min f 0) + Real.exp (min f 0 - f))

/-- Line 427. -/
def Logistic.lap_dlp (y f : ℝ) : ℝ := (y + 1) / 2 - Logistic.lap_p f

/-- Line 429. -/
def Logistic.lap_d2lp (y f : ℝ) : ℝ :=
  -Real.exp (2 * min f 0 - f) / (Real.exp (min f 0) + Real.exp (min f 0 - f)) ^ 2

/-- Line 431. -/
def Logistic.lap_d3lp (y f : ℝ) : ℝ :=
  2 * Logistic.lap_d2lp y f * (0.5 - Logistic.lap_p f)

/-- Laplace-mode branch of Logistic.proceed (lines 419-440).  Python's
builtin `max(0, s)` (line 422, reached whatever the width) takes the truth
value of the array comparison `s > 0` and raises ValueError unless the
batch has a single element. -/
def Logistic.lapMode (yN mu : Arr) (der : Option ℕ) (k : ℕ) : LikRet :=
  match der with
  | some _ => Except.ok (some [])
  | none =>
      if 1 < (List.zipWith (fun a b => a * b) yN mu).length then Except.error .valueE
      else
        Except.ok (some (if 1 < k then
            (if 2 < k then
              (if 3 < k then
                [(List.zipWith (fun a b => a * b) yN mu).map Logistic.lap_lp,
                  List.zipWith Logistic.lap_dlp yN mu, List.zipWith Logistic.lap_d2lp yN mu,
                  List.zipWith Logistic.lap_d3lp yN mu]
              else
                [(List.zipWith (fun a b => a * b) yN mu).map Logistic.lap_lp,
                  List.zipWith Logistic.lap_dlp yN mu, List.zipWith Logistic.lap_d2lp yN mu])
            else
              [(List.zipWith (fun a b => a * b) yN mu).map Logistic.lap_lp,
                List.zipWith Logistic.lap_dlp yN mu])
          else [(List.zipWith (fun a b => a * b) yN mu).map Logistic.lap_lp]))

/-- The five scale-mixture slopes `lam = sqrt(2)*[0.44 0.41 0.40 0.39 0.36]`
of line 444. -/
def lamCoef : Arr :=
  [Real.sqrt 2 * 0.44, Real.sqrt 2 * 0.41, Real.sqrt 2 * 0.40,
    Real.sqrt 2 * 0.39, Real.sqrt 2 * 0.36]

/-- The five signed mixture weights `c` of line 445. -/
def cCoef : Arr :=
  [114.6480988574439, -1508.871030070582, 2676.085036831241,
    -1356.294962039222, 75.4328564211185]

/-- Sum of elementwise products (a row-times-column np.dot). -/
def dotSum (a b : Arr) : ℝ := (List.zipWith (fun x y => x * y) a b).sum

/-- Maximum of a list of reals (np.max along a row). -/
def listMax : Arr → ℝ
  | [] => 0
  | [a] => a
  | a :: rest => max a (listMax rest)

/-- The five Erf EP log partitions `lZc` of line 447 for one batch element. -/
def Logistic.lZc (y0 mu0 s20 : ℝ) : Arr :=
  lamCoef.map (fun lj => Erf.ep_lZ y0 (mu0 * lj) (s20 * lj ^ 2))

def Logistic.dlZc (y0 mu0 s20 : ℝ) : Arr :=
  lamCoef.map (fun lj => Erf.ep_dlZ y0 (mu0 * lj) (s20 * lj ^ 2))

def Logistic.d2lZc (y0 mu0 s20 : ℝ) : Arr :=
  lamCoef.map (fun lj => Erf.ep_d2lZ y0 (mu0 * lj) (s20 * lj ^ 2))

/-- Row maximum subtracted by the numerically-safe helpers (lines 494-495,
507-508). -/
def Logistic.mixMax (y0 mu0 s20 : ℝ) : ℝ := listMax (Logistic.lZc y0 mu0 s20)

/-- `_log_expA_x(lZc, c)` (lines 450, 488-498): `log(exp(A)*x)` after
subtracting the row maximum. -/
def Logistic.mix_lZ (y0 mu0 s20 : ℝ) : ℝ :=
  Real.log (dotSum ((Logistic.lZc y0 mu0 s20).map
    (fun a => Real.exp (a - Logistic.mixMax y0 mu0 s20))) cCoef) + Logistic.mixMax y0 mu0 s20

/-- `_expABz_expAx(lZc, c, dlZc, c*lam)` (line 451). -/
def Logistic.mix_dlZ (y0 mu0 s20 : ℝ) : ℝ :=
  dotSum (List.zipWith (fun a b => Real.exp (a - Logistic.mixMax y0 mu0 s20) * b)
      (Logistic.lZc y0 mu0 s20) (Logistic.dlZc y0 mu0 s20))
    (List.zipWith (fun c l => c * l) cCoef lamCoef) /
  dotSum ((Logistic.lZc y0 mu0 s20).map
    (fun a => Real.exp (a - Logistic.mixMax y0 mu0 s20))) cCoef

/-- `_expABz_expAx(lZc, c, dlZc^2 + d2lZc, c*lam^2) - dlZ^2` (line 452). -/
def Logistic.mix_d2lZ (y0 mu0 s20 : ℝ) : ℝ :=
  dotSum (List.zipWith (fun a b => Real.exp (a - Logistic.mixMax y0 mu0 s20) * b)
      (Logistic.lZc y0 mu0 s20)
      (List.zipWith (fun d dd => d ^ 2 + dd) (Logistic.dlZc y0 mu0 s20) (Logistic.d2lZc y0 mu0 s20)))
    (List.zipWith (fun c l => c * l ^ 2) cCoef lamCoef) /
  dotSum ((Logistic.lZc y0 mu0 s20).map
    (fun a => Real.exp (a - Logistic.mixMax y0 mu0 s20))) cCoef -
  (Logistic.mix_dlZ y0 mu0 s20) ^ 2

/-- Interpolation weight of the tail correction, line 460-461:
`lam = 1/(1+exp(-10*(|mu| - 196/200*s2 - 4)))`. -/
def Logistic.lamTail (mu0 s20 : ℝ) : ℝ :=
  1 / (1 + Real.exp (-10 * (|mu0| - 196 / 200 * s20 - 4)))

/-- Tail value of log Z, lines 462 and 466-467: `min(s2/2 - |mu|, -0.1)`,
flipped through `log(1-exp(.))` when label and mean agree. -/
def Logistic.tail_lZ (y0 mu0 s20 : ℝ) : ℝ :=
  if y0 * mu0 > 0 then Real.log (1 - Real.exp (min (s20 / 2 - |mu0|) (-0.1)))
  else min (s20 / 2 - |mu0|) (-0.1)

/-- Lines 463 and 468. -/
def Logistic.tail_dlZ (y0 mu0 : ℝ) : ℝ := if y0 * mu0 > 0 then 0 else -npSign mu0

/-- Line 469: blended EP log partition of the Logistic likelihood. -/
def Logistic.ep_lZ (y0 mu0 s20 : ℝ) : ℝ :=
  (1 - Logistic.lamTail mu0 s20) * Logistic.mix_lZ y0 mu0 s20 +
    Logistic.lamTail mu0 s20 * Logistic.tail_lZ y0 mu0 s20

/-- Line 470. -/
def Logistic.ep_dlZ (y0 mu0 s20 : ℝ) : ℝ :=
  (1 - Logistic.lamTail mu0 s20) * Logistic.mix_dlZ y0 mu0 s20 +
    Logistic.lamTail mu0 s20 * Logistic.tail_dlZ y0 mu0

/-- Line 471 (`d2lZtail` is identically zero). -/
def Logistic.ep_d2lZ (y0 mu0 s20 : ℝ) : ℝ :=
  (1 - Logistic.lamTail mu0 s20) * Logistic.mix_d2lZ y0 mu0 s20

/-- EP-mode branch of Logistic.proceed (lines 441-480).  The branch goes
through `np.dot(mu, lam)` on the `atleast_2d` row vectors (line 447) and
through Python's builtin `min` on an array (line 462), so it raises
ValueError unless the batch has exactly one element; `s2` must be present
(line 447 multiplies it). -/
def Logistic.epMode (yN mu : Arr) (s2 : Option Arr) (der : Option ℕ) (k : ℕ) : LikRet :=
  match der with
  | some _ => Except.ok (some [])
  | none =>
      match s2 with
      | none => Except.error .typeE
      | some l =>
          if mu.length ≠ 1 then Except.error .valueE
          else
            Except.ok (some (if 1 < k then
                (if 2 < k then
                  [[Logistic.ep_lZ (yN.headD 1) (mu.headD 0) (l.headD 0)],
                    [Logistic.ep_dlZ (yN.headD 1) (mu.headD 0) (l.headD 0)],
                    [Logistic.ep_d2lZ (yN.headD 1) (mu.headD 0) (l.headD 0)]]
                else
                  [[Logistic.ep_lZ (yN.headD 1) (mu.headD 0) (l.headD 0)],
                    [Logistic.ep_dlZ (yN.headD 1) (mu.headD 0) (l.headD 0)]])
              else [[Logistic.ep_lZ (yN.headD 1) (mu.headD 0) (l.headD 0)]]))

/-- Packing of the prediction-mode results (lines 408-417): `p = exp(lp)`,
first moment `2p-1`, second moment `4p(1-p)`. -/
def Logistic.predPack (lp : Arr) (k : ℕ) : Option (List Arr) :=
  if 1 < k then
    (if 2 < k then
      some [lp, (lp.map Real.exp).map (fun v => 2 * v - 1),
        (lp.map Real.exp).map (fun v => 4 * v * (1 - v))]
    else some [lp, (lp.map Real.exp).map (fun v => 2 * v - 1)])
  else some [lp]

/-- Logistic.proceed after target normalisation (lines 394-486).  The
`s2` nonzero prediction branch re-enters the method in EP mode at width 1
(the renormalisation of the already-normalised `y` is the identity).  The
VB branch (lines 481-486) returns the pair `b = (y/2)*ones((n,1))`,
`z = zeros` with `n = len(s2)`, ignoring the requested width. -/
def Logistic.proceedN (yN mu : Arr) (s2 : Option Arr) (mode : InfMode) (der : Option ℕ) (k : ℕ) : LikRet :=
  match mode with
  | .pred =>
      if s2zero s2 then
        Except.ok (Logistic.predPack ((List.zipWith (fun a b => a * b) yN mu).map Logistic.pred_lp) k)
      else
        match Logistic.epMode yN mu s2 none 1 with
        | Except.error e => Except.error e
        | Except.ok r => Except.ok (Logistic.predPack (firstArr r) k)
  | .lap => Logistic.lapMode yN mu der k
  | .ep => Logistic.epMode yN mu s2 der k
  | .vb =>
      Except.ok (some [List.replicate (s2.getD []).length (yN.headD 1 / 2),
        List.replicate (s2.getD []).length 0])

/-- Logistic.proceed (lines 383-486): targets are normalised to signs
(zeros to +1) before mode dispatch. -/
def Logistic.proceed (y : Option Arr) (mu : Arr) (s2 : Option Arr)
    (mode : InfMode) (der : Option ℕ) (k : ℕ) : LikRet :=
  Logistic.proceedN (normY mu y) mu s2 mode der k

/-! ### Laplace (lines 514-715) -/

/-- The Laplace-mode log "likelihood" exactly as line 556 computes it:
`lp = np.abs(ymmu)/b - np.log(2*b)`.  Note the sign of the first term: the
class docstring (lines 516-519) gives the density
`Laplace(t) = exp(-|t-y|/b)/(2b)`, whose log is `-|t-y|/b - log(2b)`. -/
def Laplace.lap_lp (b y mu : ℝ) : ℝ := |y - mu| / b - Real.log (2 * b)

/-- Line 538 (prediction mode), which carries the correct sign. -/
def Laplace.pred_lp (b y mu : ℝ) : ℝ := -|y - mu| / b - Real.log (2 * b)

/-- Region of one batch element under the EP-mode masks of lines 580-582,
with `fac = 1e3`: `idlik` when `fac*sn < sqrt(s2)`, `idgau` when
`fac*sqrt(s2) < sn`, the interesting middle case otherwise. -/
inductive Reg
  | lik | gau | mid
deriving DecidableEq

def Laplace.regionOf (sn s2i : ℝ) : Reg :=
  if 1000 * sn < Real.sqrt s2i then .lik
  else if 1000 * Real.sqrt s2i < sn then .gau
  else .mid

/-- One batch element `(y_i, mu_i, s2_i)`. -/
abbrev Trip := ℝ × ℝ × ℝ

def Laplace.epTriples (y0 mu s2l : Arr) : List Trip := y0.zip (mu.zip s2l)

def Laplace.regsOf (sn : ℝ) (tr : List Trip) : List Reg :=
  tr.map (fun t => Laplace.regionOf sn t.2.2)

def Laplace.likTr (sn : ℝ) (tr : List Trip) : List Trip :=
  tr.filter (fun t => decide (Laplace.regionOf sn t.2.2 = Reg.lik))

def Laplace.midTr (sn : ℝ) (tr : List Trip) : List Trip :=
  tr.filter (fun t => decide (Laplace.regionOf sn t.2.2 = Reg.mid))

/-- Lines 589-590: the idlik branch builds `Gauss(log_sigma=log(s2)/2)` (so
its `sn2` is `s2`) and calls `l.proceed(mu[idlik], y[idlik])` positionally:
prediction mode with `y` and `mu` swapped and the default `nargout=1`, which
returns the single array of exact Gaussian log densities. -/
def Laplace.idlikVal (t : Trip) : ℝ := gaussExact_lp t.2.2 t.2.1 t.1

/-- Line 598: `tvar = s2/(sn^2 + 1e-16)`. -/
def Laplace.tvar (sn s2i : ℝ) : ℝ := s2i / (sn ^ 2 + 1e-16)

/-- Line 599: `tmu = (mu - y)/(sn + 1e-16)`. -/
def Laplace.tmu (sn yi mui : ℝ) : ℝ := (mui - yi) / (sn + 1e-16)

/-- Logistic interpolation weight of Laplace._logphi (line 699). -/
def Laplace.ipw (z : ℝ) : ℝ :=
  1 / (1 + Real.exp (25 * (0.5 - (z - (-6.2)) / ((-5.5) - (-6.2)))))

/-- Asymptotic branch of Laplace._logphi (line 701). -/
def Laplace.logphiAsym (z : ℝ) : ℝ :=
  -0.5 * (Real.log π + z ^ 2) - Real.log (Real.sqrt (2 + 0.5 * z ^ 2) - z / Real.sqrt 2)

/-- Laplace._logphi (lines 689-703): safe log of the standard normal CDF. -/
def Laplace.logphiL (z : ℝ) : ℝ :=
  if z > -5.5 then Real.log (0.5 * (1 + erf (z / Real.sqrt 2)))
  else if z < -6.2 then Laplace.logphiAsym z
  else (1 - Laplace.ipw z) * Laplace.logphiAsym z +
    Laplace.ipw z * Real.log (0.5 * (1 + erf (z / Real.sqrt 2)))

/-- Line 601. -/
def Laplace.zp (sn yi mui s2i : ℝ) : ℝ :=
  (Laplace.tmu sn yi mui + Real.sqrt 2 * Laplace.tvar sn s2i) / Real.sqrt (Laplace.tvar sn s2i)

/-- Line 602. -/
def Laplace.zm (sn yi mui s2i : ℝ) : ℝ :=
  (Laplace.tmu sn yi mui - Real.sqrt 2 * Laplace.tvar sn s2i) / Real.sqrt (Laplace.tvar sn s2i)

/-- Line 603. -/
def Laplace.apv (sn yi mui s2i : ℝ) : ℝ :=
  Laplace.logphiL (-Laplace.zp sn yi mui s2i) + Real.sqrt 2 * Laplace.tmu sn yi mui

/-- Line 604. -/
def Laplace.amv (sn yi mui s2i : ℝ) : ℝ :=
  Laplace.logphiL (Laplace.zm sn yi mui s2i) - Real.sqrt 2 * Laplace.tmu sn yi mui

/-- Laplace._logsum2exp on one row of two entries (lines 705-715). -/
def logsum2exp (a b : ℝ) : ℝ :=
  Real.log (Real.exp (a - max a b) + Real.exp (b - max a b)) + max a b

/-- Line 606: general-case log partition. -/
def Laplace.mid_lZ (sn yi mui s2i : ℝ) : ℝ :=
  logsum2exp (Laplace.apv sn yi mui s2i) (Laplace.amv sn yi mui s2i) +
    Laplace.tvar sn s2i - Real.log (sn * Real.sqrt 2)

/-- Line 609. -/
def Laplace.lqp (sn yi mui s2i : ℝ) : ℝ :=
  -0.5 * (Laplace.zp sn yi mui s2i) ^ 2 - 0.5 * Real.log (2 * π) -
    Laplace.logphiL (-Laplace.zp sn yi mui s2i)

/-- Line 610. -/
def Laplace.lqm (sn yi mui s2i : ℝ) : ℝ :=
  -0.5 * (Laplace.zm sn yi mui s2i) ^ 2 - 0.5 * Real.log (2 * π) -
    Laplace.logphiL (Laplace.zm sn yi mui s2i)

/-- Line 611. -/
def Laplace.dapv (sn yi mui s2i : ℝ) : ℝ :=
  -Real.exp (Laplace.lqp sn yi mui s2i - 0.5 * Real.log s2i) + Real.sqrt 2 / sn

/-- Line 612. -/
def Laplace.damv (sn yi mui s2i : ℝ) : ℝ :=
  Real.exp (Laplace.lqm sn yi mui s2i - 0.5 * Real.log s2i) - Real.sqrt 2 / sn

/-- Laplace._expABz_expAx on one row `A = (a, b)` with `x = z = (1,1)` and
`B = (u, v)` (lines 676-687): the row maximum is subtracted before
exponentiating. -/
def wexp (a b u v : ℝ) : ℝ :=
  (Real.exp (a - max a b) * u + Real.exp (b - max a b) * v) /
    (Real.exp (a - max a b) + Real.exp (b - max a b))

/-- Lines 613-616.  `_expABz_expAx` is fed the whole stacked `(m,2)` matrix
but returns `y[0]`, its first row only, so every general-case element of
`dlZ` receives the value computed from the first general-case element. -/
def Laplace.mid_dlZ (sn yi mui s2i : ℝ) : ℝ :=
  wexp (Laplace.apv sn yi mui s2i) (Laplace.amv sn yi mui s2i)
    (Laplace.dapv sn yi mui s2i) (Laplace.damv sn yi mui s2i)

/-- Line 619 with `a = sqrt(8)/sn/sqrt(s2)`. -/
def Laplace.bpv (sn yi mui s2i : ℝ) : ℝ :=
  2 / sn ^ 2 - (Real.sqrt 8 / sn / Real.sqrt s2i - Laplace.zp sn yi mui s2i / s2i) *
    Real.exp (Laplace.lqp sn yi mui s2i)

/-- Line 620. -/
def Laplace.bmv (sn yi mui s2i : ℝ) : ℝ :=
  2 / sn ^ 2 - (Real.sqrt 8 / sn / Real.sqrt s2i + Laplace.zm sn yi mui s2i / s2i) *
    Real.exp (Laplace.lqm sn yi mui s2i)

/-- Line 624. -/
def Laplace.mid_d2lZ (sn yi mui s2i : ℝ) : ℝ :=
  wexp (Laplace.apv sn yi mui s2i) (Laplace.amv sn yi mui s2i)
    (Laplace.bpv sn yi mui s2i) (Laplace.bmv sn yi mui s2i) -
  (Laplace.mid_dlZ sn yi mui s2i) ^ 2

/-- EP-mode (no derivative) branch of Laplace.proceed, lines 584-629,
with the control flow of the executed Python:
* the idlik block (lines 588-591) runs first; `a` is the single array of the
  misdirected Gauss call, so `a[1]`/`a[2]` raise IndexError unless at least
  3 elements are idlik; otherwise `lZ`, `dlZ`, `d2lZ` get `a[0]`, `a[1]`,
  `a[2]` broadcast over all idlik positions;
* any idgau element then raises TypeError, since line 593 calls
  `Laplace(log_hyp=...)` and the constructor (line 523) has no such keyword;
* width > 1 reads `zp`, `zm` (line 609), which were assigned only inside
  `if np.any(id)` (line 596): NameError when no element is in the middle
  region;
* width > 2 reshapes the stacked `(2,m)` array to `(1,2)` (lines 621-623):
  ValueError unless exactly one element is in the middle region. -/
def Laplace.aArr (sn : ℝ) (tr : List Trip) : Arr := (Laplace.likTr sn tr).map Laplace.idlikVal

/-- The assembled `lZ` array (lines 585, 591, 606): idlik positions all get
`a[0]`, middle positions their elementwise log partition, other positions
keep the zero initialisation. -/
def Laplace.lZArr (sn : ℝ) (tr : List Trip) : Arr :=
  tr.map (fun t =>
    match Laplace.regionOf sn t.2.2 with
    | .lik => (Laplace.aArr sn tr).getD 0 0
    | .gau => 0
    | .mid => Laplace.mid_lZ sn t.1 t.2.1 t.2.2)

/-- The assembled `dlZ` array (lines 586, 591, 616): idlik positions all get
`a[1]`, middle positions all get the first middle element's ratio (see
`Laplace.mid_dlZ`). -/
def Laplace.dlZArr (sn : ℝ) (tr : List Trip) : Arr :=
  tr.map (fun t =>
    match Laplace.regionOf sn t.2.2 with
    | .lik => (Laplace.aArr sn tr).getD 1 0
    | .gau => 0
    | .mid =>
        Laplace.mid_dlZ sn ((Laplace.midTr sn tr).headD (0, 0, 0)).1
          ((Laplace.midTr sn tr).headD (0, 0, 0)).2.1
          ((Laplace.midTr sn tr).headD (0, 0, 0)).2.2)

/-- The assembled `d2lZ` array (lines 587, 591, 624); only built when
exactly one element is in the middle region. -/
def Laplace.d2lZArr (sn : ℝ) (tr : List Trip) : Arr :=
  tr.map (fun t =>
    match Laplace.regionOf sn t.2.2 with
    | .lik => (Laplace.aArr sn tr).getD 2 0
    | .gau => 0
    | .mid =>
        Laplace.mid_d2lZ sn ((Laplace.midTr sn tr).headD (0, 0, 0)).1
          ((Laplace.midTr sn tr).headD (0, 0, 0)).2.1
          ((Laplace.midTr sn tr).headD (0, 0, 0)).2.2)

def Laplace.epNoDer (sn : ℝ) (y0 mu s2l : Arr) (k : ℕ) : LikRet :=
  if 0 < (Laplace.likTr sn (Laplace.epTriples y0 mu s2l)).length ∧
      (Laplace.likTr sn (Laplace.epTriples y0 mu s2l)).length < 3 then Except.error .indexE
  else if Reg.gau ∈ Laplace.regsOf sn (Laplace.epTriples y0 mu s2l) then Except.error .typeE
  else if k ≤ 1 then Except.ok (some [Laplace.lZArr sn (Laplace.epTriples y0 mu s2l)])
  else if Reg.mid ∉ Laplace.regsOf sn (Laplace.epTriples y0 mu s2l) then Except.error .nameE
  else if k ≤ 2 then
    Except.ok (some [Laplace.lZArr sn (Laplace.epTriples y0 mu s2l),
      Laplace.dlZArr sn (Laplace.epTriples y0 mu s2l)])
  else if (Laplace.midTr sn (Laplace.epTriples y0 mu s2l)).length ≠ 1 then Except.error .valueE
  else
    Except.ok (some [Laplace.lZArr sn (Laplace.epTriples y0 mu s2l),
      Laplace.dlZArr sn (Laplace.epTriples y0 mu s2l),
      Laplace.d2lZArr sn (Laplace.epTriples y0 mu s2l)])

/-- Line 642 (derivative mode): `zp = (tvar + tmu/sqrt 2)/sqrt(tvar)`. -/
def Laplace.zpD (sn yi mui s2i : ℝ) : ℝ :=
  (Laplace.tvar sn s2i + Laplace.tmu sn yi mui / Real.sqrt 2) / Real.sqrt (Laplace.tvar sn s2i)

/-- Line 643. -/
def Laplace.zmD (sn yi mui s2i : ℝ) : ℝ :=
  (Laplace.tvar sn s2i - Laplace.tmu sn yi mui / Real.sqrt 2) / Real.sqrt (Laplace.tvar sn s2i)

/-- Line 642: `vp = tvar + sqrt(2)*tmu`. -/
def Laplace.vpD (sn yi mui s2i : ℝ) : ℝ :=
  Laplace.tvar sn s2i + Real.sqrt 2 * Laplace.tmu sn yi mui

/-- Line 643. -/
def Laplace.vmD (sn yi mui s2i : ℝ) : ℝ :=
  Laplace.tvar sn s2i - Real.sqrt 2 * Laplace.tmu sn yi mui

/-- Line 644. -/
def Laplace.dzp (sn yi mui s2i : ℝ) : ℝ :=
  (-s2i / sn + Laplace.tmu sn yi mui * sn / Real.sqrt 2) / Real.sqrt s2i

/-- Line 646. -/
def Laplace.dzm (sn yi mui s2i : ℝ) : ℝ :=
  (-s2i / sn - Laplace.tmu sn yi mui * sn / Real.sqrt 2) / Real.sqrt s2i

/-- Line 645. -/
def Laplace.dvp (sn yi mui s2i : ℝ) : ℝ :=
  -2 * Laplace.tvar sn s2i - Real.sqrt 2 * Laplace.tmu sn yi mui

/-- Line 647. -/
def Laplace.dvm (sn yi mui s2i : ℝ) : ℝ :=
  -2 * Laplace.tvar sn s2i + Real.sqrt 2 * Laplace.tmu sn yi mui

/-- Interpolation weight of Laplace._lerfc (line 671), `tmin=20`, `tmax=25`. -/
def Laplace.lw (t : ℝ) : ℝ :=
  1 / (1 + Real.exp (12 * (0.5 - (t - 20) / (25 - 20))))

/-- Asymptotic branch of Laplace._lerfc (line 670). -/
def Laplace.lerfcAsym (t : ℝ) : ℝ :=
  Real.log (2 / Real.sqrt π) - t ^ 2 - Real.log (t + Real.sqrt (t ^ 2 + 4 / π))

/-- Laplace._lerfc (lines 661-674): safe log(erfc(t)). -/
def Laplace.lerfc (t : ℝ) : ℝ :=
  if t < 20 then Real.log (erfc t)
  else if t > 25 then Laplace.lerfcAsym t
  else Laplace.lw t * Laplace.lerfcAsym t + (1 - Laplace.lw t) * Real.log (erfc t)

/-- Lines 648-655: general-case derivative of log Z w.r.t. the
hyperparameter. -/
def Laplace.mid_dlZhyp (sn yi mui s2i : ℝ) : ℝ :=
  (Real.exp (Laplace.vpD sn yi mui s2i + Laplace.lerfc (Laplace.zpD sn yi mui s2i) -
      max (Laplace.vpD sn yi mui s2i + Laplace.lerfc (Laplace.zpD sn yi mui s2i))
        (Laplace.vmD sn yi mui s2i + Laplace.lerfc (Laplace.zmD sn yi mui s2i))) *
    (Laplace.dvp sn yi mui s2i - 2 / Real.sqrt π *
      Real.exp (-(Laplace.zpD sn yi mui s2i) ^ 2 - Laplace.lerfc (Laplace.zpD sn yi mui s2i)) *
      Laplace.dzp sn yi mui s2i) +
   Real.exp (Laplace.vmD sn yi mui s2i + Laplace.lerfc (Laplace.zmD sn yi mui s2i) -
      max (Laplace.vpD sn yi mui s2i + Laplace.lerfc (Laplace.zpD sn yi mui s2i))
        (Laplace.vmD sn yi mui s2i + Laplace.lerfc (Laplace.zmD sn yi mui s2i))) *
    (Laplace.dvm sn yi mui s2i - 2 / Real.sqrt π *
      Real.exp (-(Laplace.zmD sn yi mui s2i) ^ 2 - Laplace.lerfc (Laplace.zmD sn yi mui s2i)) *
      Laplace.dzm sn yi mui s2i)) /
  (Real.exp (Laplace.vpD sn yi mui s2i + Laplace.lerfc (Laplace.zpD sn yi mui s2i) -
      max (Laplace.vpD sn yi mui s2i + Laplace.lerfc (Laplace.zpD sn yi mui s2i))
        (Laplace.vmD sn yi mui s2i + Laplace.lerfc (Laplace.zmD sn yi mui s2i))) +
   Real.exp (Laplace.vmD sn yi mui s2i + Laplace.lerfc (Laplace.zmD sn yi mui s2i) -
      max (Laplace.vpD sn yi mui s2i + Laplace.lerfc (Laplace.zpD sn yi mui s2i))
        (Laplace.vmD sn yi mui s2i + Laplace.lerfc (Laplace.zmD sn yi mui s2i)))) - 1

/-- EP derivative mode of Laplace.proceed, lines 630-656: `dlZhyp` is zero
on idlik elements, any idgau element raises the same constructor TypeError
(line 635), middle elements get the closed-form derivative; one bare array
is returned whatever the width. -/
def Laplace.epDerMode (sn : ℝ) (y0 mu s2l : Arr) : LikRet :=
  if Reg.gau ∈ Laplace.regsOf sn (Laplace.epTriples y0 mu s2l) then Except.error .typeE
  else
    Except.ok (some [(Laplace.epTriples y0 mu s2l).map (fun t =>
      match Laplace.regionOf sn t.2.2 with
      | .mid => Laplace.mid_dlZhyp sn t.1 t.2.1 t.2.2
      | _ => 0)])

/-- Laplace-mode branch of Laplace.proceed, lines 551-571.  Width 1 returns
`lp` of line 556 (with its flipped sign); any larger width reaches
`return lp, dlp` (lines 563-567) and raises NameError, because line 558
assigned the derivative to the misspelt name `dip` and `dlp` is never
defined.  Derivative mode returns `[]`. -/
def Laplace.lapMode (b : ℝ) (y0 mu : Arr) (der : Option ℕ) (k : ℕ) : LikRet :=
  match der with
  | some _ => Except.ok (some [])
  | none =>
      if k ≤ 1 then Except.ok (some [List.zipWith (Laplace.lap_lp b) y0 mu])
      else Except.error .nameE

/-- Prediction-mode branch of Laplace.proceed, lines 530-549.  In the
`s2zero` branch `s2` is reassigned to the scalar 0, so `ys2 = s2 + sn^2` is
the constant `sn^2`; the nonzero branch re-enters the method in EP mode at
width 1 and can propagate that branch's exceptions. -/
def Laplace.predMode (sn b : ℝ) (y0 mu : Arr) (s2 : Option Arr) (k : ℕ) : LikRet :=
  if s2zero s2 then
    Except.ok (some (if 1 < k then
        (if 2 < k then
          [List.zipWith (Laplace.pred_lp b) y0 mu, mu, List.replicate mu.length (sn ^ 2)]
        else [List.zipWith (Laplace.pred_lp b) y0 mu, mu])
      else [List.zipWith (Laplace.pred_lp b) y0 mu]))
  else
    match Laplace.epNoDer sn y0 mu (s2.getD []) 1 with
    | Except.error e => Except.error e
    | Except.ok r =>
        Except.ok (some (if 1 < k then
            (if 2 < k then [firstArr r, mu, (s2.getD []).map (fun v => v + sn ^ 2)]
             else [firstArr r, mu])
          else [firstArr r]))

/-- Laplace.proceed (lines 526-659).  `sn = exp(log_sigma)`, `b = sn/sqrt 2`
(line 527); an absent `y` is replaced by zeros before mode dispatch (lines
528-529).  EP mode requires `s2` (line 573 calls `s2.flatten()`, AttributeError
on `None`).  The VB branch (lines 657-659) returns `b = zeros((n,1))` and
`z = y`, ignoring the requested width. -/
def Laplace.proceed (lsig : ℝ) (y : Option Arr) (mu : Arr) (s2 : Option Arr)
    (mode : InfMode) (der : Option ℕ) (k : ℕ) : LikRet :=
  match mode with
  | .pred =>
      Laplace.predMode (Real.exp lsig) (Real.exp lsig / Real.sqrt 2)
        (y.getD (List.replicate mu.length 0)) mu s2 k
  | .lap =>
      Laplace.lapMode (Real.exp lsig / Real.sqrt 2) (y.getD (List.replicate mu.length 0)) mu der k
  | .ep =>
      match s2 with
      | none => Except.error .attrE
      | some l =>
          match der with
          | none => Laplace.epNoDer (Real.exp lsig) (y.getD (List.replicate mu.length 0)) mu l k
          | some _ => Laplace.epDerMode (Real.exp lsig) (y.getD (List.replicate mu.length 0)) mu l
  | .vb =>
      Except.ok (some [List.replicate (s2.getD []).length 0,
        y.getD (List.replicate mu.length 0)])

/-! ### Verification of the specification claims -/

/-- C7: for every log_sigma, y and mu, the Gaussian EP log-partition formula
evaluated at `s2 = 0` is exactly (as a closed-form identity) the exact
prediction-mode log likelihood with `sn2 = exp(2*log_sigma)`. -/
theorem claim_C7 (lsig y mu : ℝ) :
    gaussEP_lZ (Real.exp (2 * lsig)) y mu 0 = gaussExact_lp (Real.exp (2 * lsig)) y mu := by
  simp [gaussEP_lZ, gaussExact_lp]

/-- C6 (amended): `gauOverCumGauss` computes `phi(z)/p` directly for
`z > -5`, uses the algebraic upper bound `sqrt(z^2/4+1) - z/2` for `z < -6`,
and for `-6 <= z <= -5` blends the two values using the linear interpolation
weight `lam = -5 - z` (weight on the bound term), not a logistic weight. -/
theorem claim_C6 (z p : ℝ) :
    (z > -5 → Erf.gauOverCumGauss z p = gaussDens z / p) ∧
    (z < -6 → Erf.gauOverCumGauss z p = npBound z) ∧
    (-6 ≤ z → z ≤ -5 → Erf.gauOverCumGauss z p =
      (1 - (-5 - z)) * (gaussDens z / p) + (-5 - z) * npBound z) := by
  refine ⟨fun h => ?_, fun h => ?_, fun h1 h2 => ?_⟩
  · rw [Erf.gauOverCumGauss, if_pos h]
  · rw [Erf.gauOverCumGauss, if_neg (by linarith), if_pos h]
  · rw [Erf.gauOverCumGauss, if_neg (by linarith), if_neg (by linarith)]

/-- Witness for C6 at `z = -5.5`, `p = 1`: the middle region blends with the
linear weight `-5 - (-5.5) = 1/2`. -/
theorem claim_C6_witness :
    Erf.gauOverCumGauss (-5.5) 1 =
      (1 - (-5 - (-5.5))) * (gaussDens (-5.5) / 1) + (-5 - (-5.5)) * npBound (-5.5) :=
  (claim_C6 (-5.5) 1).2.2 (by norm_num) (by norm_num)

/-- C6 counterexample: the claim says the blend on `[-6, -5]` uses a
logistic interpolation weight in `z`.  No weight of the logistic family
`w(z) = 1/(1+exp(a*z+b))` reproduces what the code computes there: at
`z = -5` the code's weight on the bound term is exactly 0 (the output is the
direct value), while a logistic function is strictly positive and the direct
and bound values differ at `z = -5`. -/
theorem claim_C6_counterexample :
    ¬ ∃ a b : ℝ, ∀ z : ℝ, -6 ≤ z → z ≤ -5 →
      Erf.gauOverCumGauss z 1 =
        (1 - 1 / (1 + Real.exp (a * z + b))) * (gaussDens z / 1) +
          1 / (1 + Real.exp (a * z + b)) * npBound z := by
  rintro ⟨a, b, h⟩
  have h5 := h (-5) (by norm_num) (by norm_num)
  have hcode : Erf.gauOverCumGauss (-5) 1 = gaussDens (-5) / 1 := by
    rw [Erf.gauOverCumGauss, if_neg (by norm_num), if_neg (by norm_num)]
    ring
  have hw : 0 < 1 / (1 + Real.exp (a * (-5) + b)) := by positivity
  have hd : gaussDens (-5) / 1 < 1 := by
    rw [gaussDens]
    have h1 : Real.exp (-((-5:ℝ) ^ 2) / 2) < 1 := by
      rw [Real.exp_lt_one_iff]; norm_num
    have h2 : (1:ℝ) < Real.sqrt (2 * π) := by
      rw [show (1:ℝ) = Real.sqrt 1 by simp]
      exact Real.sqrt_lt_sqrt (by norm_num) (by nlinarith [Real.pi_gt_three])
    rw [div_one, div_lt_one (by positivity)]
    nlinarith
  have hb : (5:ℝ) / 2 ≤ npBound (-5) := by
    rw [npBound]
    have := Real.sqrt_nonneg ((-5:ℝ) ^ 2 / 4 + 1)
    nlinarith
  nlinarith [mul_pos hw (by nlinarith : (0:ℝ) < npBound (-5) - gaussDens (-5) / 1)]

/-- C1: the Laplace likelihood in Laplace-inference mode is broken: the
claim says the width-4 result is `(lp, dlp, d2lp, d3lp)` with
`lp = -|y-mu|/b - log(2b)` and `dlp = sign(y-mu)/b`, but at
`log_sigma = 0`, `y = [1]`, `mu = [0]` the width-4 call raises NameError
(line 558 assigns the misspelt local `dip`, so `return lp,dlp,d2lp,d3lp`
reads an undefined `dlp`), and the width-1 value of `lp` is
`+|y-mu|/b - log(2b) = sqrt 2 - log (sqrt 2)` (line 556 dropped the minus
sign), which differs from the claimed `pred_lp` value `-sqrt 2 - log(sqrt 2)`
of line 538. -/
theorem claim_C1 :
    Laplace.proceed 0 (some [1]) [0] none .lap none 4 = Except.error PyErr.nameE ∧
    Laplace.proceed 0 (some [1]) [0] none .lap none 1 =
      Except.ok (some [[Real.sqrt 2 - Real.log (Real.sqrt 2)]]) ∧
    Real.sqrt 2 - Real.log (Real.sqrt 2) ≠ Laplace.pred_lp (Real.exp 0 / Real.sqrt 2) 1 0 := by
  have hs : (0:ℝ) < Real.sqrt 2 := Real.sqrt_pos.mpr (by norm_num)
  have hb1 : |(1:ℝ) - 0| / (Real.exp 0 / Real.sqrt 2) = Real.sqrt 2 := by
    rw [Real.exp_zero]
    rw [show |(1:ℝ) - 0| = 1 by norm_num]
    rw [one_div_one_div]
  have hb2 : 2 * (Real.exp 0 / Real.sqrt 2) = Real.sqrt 2 := by
    rw [Real.exp_zero]
    field_simp
  refine ⟨rfl, ?_, ?_⟩
  · show Laplace.lapMode (Real.exp 0 / Real.sqrt 2) [1] [0] none 1 = _
    rw [Laplace.lapMode]
    simp only [List.zipWith, Laplace.lap_lp, hb1, hb2]
    norm_num
  · rw [Laplace.pred_lp]
    have h3 : -|(1:ℝ) - 0| / (Real.exp 0 / Real.sqrt 2) = -Real.sqrt 2 := by
      rw [neg_div, hb1]
    rw [h3, hb2]
    intro h
    have : Real.sqrt 2 = -Real.sqrt 2 := by linarith
    linarith

/-- C4 counterexample: VB mode on Gauss at a concrete input silently
returns the non-error value `None` instead of raising an error: the claim
that an undefined inference_mode/variant pairing always raises is false. -/
theorem claim_C4_counterexample :
    Gauss.proceed 0 (some [0]) [0] (some [1]) .vb none 1 = Except.ok none := rfl

/-- C4 (amended): calling Gauss or Erf with VB mode does not raise: the
isinstance dispatch chain matches nothing (the VB blocks are commented out)
and both methods fall off their end, silently returning Python `None` for
every input. -/
theorem claim_C4 (lsig : ℝ) (y : Option Arr) (mu : Arr) (s2 : Option Arr)
    (der : Option ℕ) (k : ℕ) :
    Gauss.proceed lsig y mu s2 .vb der k = Except.ok none ∧
    Erf.proceed y mu s2 .vb der k = Except.ok none :=
  ⟨rfl, rfl⟩

lemma thousand_lt_exp_twenty : (1000:ℝ) < Real.exp 20 := by
  have h1 : (1000:ℝ) < 2.7 ^ (20:ℕ) := by norm_num
  have h2 : (2.7:ℝ) ^ (20:ℕ) ≤ Real.exp 1 ^ (20:ℕ) :=
    pow_le_pow_left (by norm_num) (le_of_lt (lt_trans (by norm_num) Real.exp_one_gt_d9)) 20
  have h3 : Real.exp 20 = Real.exp 1 ^ (20:ℕ) := by
    rw [← Real.exp_nat_mul]; norm_num
  rw [h3]; linarith

lemma exp_neg_twenty_small : 1000 * Real.exp (-20) < 1 := by
  have h : Real.exp (-20) < 1 / 1000 := by
    rw [Real.exp_neg, one_div]
    exact inv_lt_inv_of_lt (by norm_num) thousand_lt_exp_twenty
  linarith

/-- At `sn = exp(-20)` an element with `s2 = 1` falls in the idlik region. -/
lemma region_lik_example : Laplace.regionOf (Real.exp (-20)) 1 = Reg.lik := by
  rw [Laplace.regionOf, Real.sqrt_one, if_pos (by linarith [exp_neg_twenty_small])]

/-- At `sn = exp 0 = 1` an element with `s2 = 1e-8` falls in the idgau
region. -/
lemma region_gau_e8 : Laplace.regionOf 1 ((100000000:ℝ)⁻¹) = Reg.gau := by
  have hsq : Real.sqrt ((100000000:ℝ)⁻¹) = (10000:ℝ)⁻¹ := by
    rw [show ((100000000:ℝ))⁻¹ = ((10000:ℝ)⁻¹) ^ 2 by norm_num,
      Real.sqrt_sq (by norm_num)]
  rw [Laplace.regionOf, hsq, if_neg (by norm_num), if_pos (by norm_num)]

/-- At `sn = exp 0 = 1` an element with `s2 = 1e-10` falls in the idgau
region. -/
lemma region_gau_e10 : Laplace.regionOf 1 ((10000000000:ℝ)⁻¹) = Reg.gau := by
  have hsq : Real.sqrt ((10000000000:ℝ)⁻¹) = (100000:ℝ)⁻¹ := by
    rw [show ((10000000000:ℝ))⁻¹ = ((100000:ℝ)⁻¹) ^ 2 by norm_num,
      Real.sqrt_sq (by norm_num)]
  rw [Laplace.regionOf, hsq, if_neg (by norm_num), if_pos (by norm_num)]

/-- C3: the two delta-peak branches of Laplace EP mode do not work as
claimed.  At `log_sigma = 0`, `y = [0]`, `mu = [0]`, `s2 = [1e-8]` the
single element satisfies `sn >= 1000*sqrt(s2)` (idgau), and instead of a
direct Laplace density evaluation the call raises TypeError, because line
593 passes the keyword `log_hyp` which the constructor does not accept.  At
`log_sigma = -20`, `s2 = [1]` the single element satisfies
`sqrt(s2) >= 1000*sn` (idlik), and instead of the Gaussian EP formula the
call raises IndexError, because line 590 calls Gauss in prediction mode at
width 1 with `y`/`mu` swapped and line 591 then indexes `a[1]`, `a[2]` into
the single returned array of length 1. -/
theorem claim_C3 :
    Laplace.proceed 0 (some [0]) [0] (some [1 / 100000000]) .ep none 3 =
      Except.error PyErr.typeE ∧
    Laplace.proceed (-20) (some [0]) [0] (some [1]) .ep none 3 =
      Except.error PyErr.indexE := by
  constructor
  · show Laplace.epNoDer (Real.exp 0) [0] [0] [1 / 100000000] 3 = _
    simp [Laplace.epNoDer, Laplace.likTr, Laplace.epTriples, Laplace.regsOf, region_gau_e8]
  · show Laplace.epNoDer (Real.exp (-20)) [0] [0] [1] 3 = _
    simp [Laplace.epNoDer, Laplace.likTr, Laplace.epTriples, Laplace.regsOf, region_lik_example]

/-- C10 counterexample: at `log_sigma = 0`, `y = [0]`, `mu = [0]`,
`s2 = [1e-10]`, width 2, the single batch element is in the idgau region, so
no element falls in the general case, yet the raised error is the
constructor TypeError of line 593, not an undefined-variable NameError. -/
theorem claim_C10_counterexample :
    Laplace.proceed 0 (some [0]) [0] (some [1 / 10000000000]) .ep none 2 =
      Except.error PyErr.typeE ∧ PyErr.typeE ≠ PyErr.nameE := by
  constructor
  · show Laplace.epNoDer (Real.exp 0) [0] [0] [1 / 10000000000] 2 = _
    simp [Laplace.epNoDer, Laplace.likTr, Laplace.epTriples, Laplace.regsOf, region_gau_e10]
  · decide

/-- C8: for the classification likelihoods (Erf and Logistic), in every mode
the result depends on the targets only through their normalisation, which
replaces any non-zero y elementwise by its sign and maps zero to +1; in
particular y = 0 produces exactly the same result as y = +1. -/
theorem claim_C8 :
    (∀ (y1 y2 mu : Arr) (s2 : Option Arr) (mode : InfMode) (der : Option ℕ) (k : ℕ),
      y1.map signFix = y2.map signFix →
        Erf.proceed (some y1) mu s2 mode der k = Erf.proceed (some y2) mu s2 mode der k ∧
        Logistic.proceed (some y1) mu s2 mode der k =
          Logistic.proceed (some y2) mu s2 mode der k) ∧
    signFix 0 = 1 ∧ signFix 1 = 1 ∧ (∀ t : ℝ, t ≠ 0 → signFix t = npSign t) := by
  refine ⟨fun y1 y2 mu s2 mode der k h => ?_, ?_, ?_, fun t ht => ?_⟩
  · constructor
    · show Erf.proceedN (normY mu (some y1)) mu s2 mode der k =
        Erf.proceedN (normY mu (some y2)) mu s2 mode der k
      simp only [normY, h]
    · show Logistic.proceedN (normY mu (some y1)) mu s2 mode der k =
        Logistic.proceedN (normY mu (some y2)) mu s2 mode der k
      simp only [normY, h]
  · norm_num [signFix, npSign]
  · norm_num [signFix, npSign]
  · have hns : npSign t ≠ 0 := by
      rcases lt_trichotomy t 0 with h | h | h
      · norm_num [npSign, h]
      · exact absurd h ht
      · norm_num [npSign, not_lt_of_gt h, ne_of_gt h]
    rw [signFix, if_neg hns]

/-- Witness for C8: Erf and Logistic give identical prediction-mode results
for the targets [0] and [1]. -/
theorem claim_C8_witness :
    Erf.proceed (some [0]) [1 / 2] none .pred none 1 =
      Erf.proceed (some [1]) [1 / 2] none .pred none 1 ∧
    Logistic.proceed (some [0]) [1 / 2] none .pred none 1 =
      Logistic.proceed (some [1]) [1 / 2] none .pred none 1 :=
  claim_C8.1 [0] [1] [1 / 2] none .pred none 1 (by norm_num [signFix, npSign])

/-- C9: Logistic in Laplace-inference mode (no derivative mode) succeeds on
a batch of exactly one element and raises for every longer batch, whatever
the requested width: line 422 evaluates Python's builtin `max(0, s)` on the
whole array `s = -y*mu`, whose elementwise-comparison truth test raises
ValueError unless the array is a singleton. -/
theorem claim_C9 (y : Option Arr) (mu : Arr) (s2 : Option Arr) (k : ℕ)
    (hy : y = none ∨ ∃ l, y = some l ∧ l.length = mu.length) :
    (1 < mu.length → Logistic.proceed y mu s2 .lap none k = Except.error PyErr.valueE) ∧
    (mu.length = 1 → ∃ t, Logistic.proceed y mu s2 .lap none k = Except.ok (some t)) := by
  have hlen : (List.zipWith (fun a b => a * b) (normY mu y) mu).length = mu.length := by
    rcases hy with rfl | ⟨l, rfl, hl⟩
    · simp [normY]
    · simp [normY, hl]
  constructor
  · intro h
    show Logistic.lapMode (normY mu y) mu none k = Except.error PyErr.valueE
    simp only [Logistic.lapMode]
    rw [if_pos (by rw [hlen]; exact h)]
  · intro h
    show ∃ t, Logistic.lapMode (normY mu y) mu none k = Except.ok (some t)
    simp only [Logistic.lapMode]
    rw [if_neg (by rw [hlen, h]; norm_num)]
    exact ⟨_, rfl⟩

/-- Witness for C9: a batch of two raises ValueError, a singleton batch
succeeds. -/
theorem claim_C9_witness :
    Logistic.proceed none [1, 2] none .lap none 1 = Except.error PyErr.valueE ∧
    ∃ t, Logistic.proceed none [1] none .lap none 1 = Except.ok (some t) :=
  ⟨(claim_C9 none [1, 2] none 1 (Or.inl rfl)).1 (by norm_num),
   (claim_C9 none [1] none 1 (Or.inl rfl)).2 (by norm_num)⟩

/-- C10 (amended): Laplace EP mode (no derivative mode) with width > 1
always raises an error when no batch element falls in the general case, but
the error is an undefined-variable NameError for `zp`/`zm` only when the
earlier branch bodies do not raise first: it is the NameError exactly when
additionally no element is idgau (TypeError from the `log_hyp` constructor
call, line 593) and the idlik count is 0 or at least 3 (otherwise IndexError
from `a[1]`/`a[2]` on the single array returned by the misdirected Gauss
call, lines 590-591). -/
theorem claim_C10 (lsig : ℝ) (y mu s2l : Arr) (k : ℕ) (hk : 1 < k)
    (hmid : Reg.mid ∉ Laplace.regsOf (Real.exp lsig) (Laplace.epTriples y mu s2l)) :
    (∃ e, Laplace.proceed lsig (some y) mu (some s2l) .ep none k = Except.error e) ∧
    (Reg.gau ∉ Laplace.regsOf (Real.exp lsig) (Laplace.epTriples y mu s2l) →
      ¬(0 < (Laplace.likTr (Real.exp lsig) (Laplace.epTriples y mu s2l)).length ∧
          (Laplace.likTr (Real.exp lsig) (Laplace.epTriples y mu s2l)).length < 3) →
      Laplace.proceed lsig (some y) mu (some s2l) .ep none k = Except.error PyErr.nameE) := by
  constructor
  · show ∃ e, Laplace.epNoDer (Real.exp lsig) y mu s2l k = Except.error e
    rw [Laplace.epNoDer]
    split_ifs with h1 h2 h3 h4 h5 h6 <;>
      first
        | exact ⟨_, rfl⟩
        | omega
        | exact absurd hmid (by simpa using h4)
  · intro hgau hcnt
    show Laplace.epNoDer (Real.exp lsig) y mu s2l k = Except.error PyErr.nameE
    rw [Laplace.epNoDer, if_neg hcnt, if_neg hgau, if_neg (by omega), if_pos hmid]

/-- Witness for C10: three idlik elements (`sn = exp(-20)`, `s2 = 1`), no
general-case element, width 2: the NameError is raised. -/
theorem claim_C10_witness :
    Laplace.proceed (-20) (some [0, 0, 0]) [0, 0, 0] (some [1, 1, 1]) .ep none 2 =
      Except.error PyErr.nameE := by
  have hregs : Laplace.regsOf (Real.exp (-20)) (Laplace.epTriples [0, 0, 0] [0, 0, 0] [1, 1, 1]) =
      [Reg.lik, Reg.lik, Reg.lik] := by
    simp [Laplace.regsOf, Laplace.epTriples, region_lik_example]
  have hlik : (Laplace.likTr (Real.exp (-20))
      (Laplace.epTriples [0, 0, 0] [0, 0, 0] [1, 1, 1])).length = 3 := by
    simp [Laplace.likTr, Laplace.epTriples, region_lik_example]
  refine (claim_C10 (-20) [0, 0, 0] [0, 0, 0] [1, 1, 1] 2 (by norm_num) ?_).2 ?_ ?_
  · rw [hregs]; decide
  · rw [hregs]; decide
  · omega

lemma exp_taylor4_sum (x : ℝ) :
    ∑ m ∈ Finset.range 4, x ^ m / m.factorial = 1 + x + x ^ 2 / 2 + x ^ 3 / 6 := by
  simp [Finset.sum_range_succ, Nat.factorial]

lemma exp_taylor4_ub {x : ℝ} (h0 : 0 ≤ x) (h1 : x ≤ 1) :
    Real.exp x ≤ 1 + x + x ^ 2 / 2 + x ^ 3 / 6 + x ^ 4 * 5 / 96 := by
  have h := Real.exp_bound' h0 h1 (n := 4) (by norm_num)
  rw [exp_taylor4_sum] at h
  norm_num [Nat.factorial] at h
  linarith

lemma exp_taylor4_lb {x : ℝ} (h0 : 0 ≤ x) (h1 : x ≤ 1) :
    1 + x + x ^ 2 / 2 + x ^ 3 / 6 - x ^ 4 * 5 / 96 ≤ Real.exp x := by
  have h := Real.exp_bound (x := x) (by rwa [abs_of_nonneg h0]) (n := 4) (by norm_num)
  rw [exp_taylor4_sum, abs_of_nonneg h0] at h
  have h2 := (abs_le.mp h).1
  norm_num [Nat.factorial] at h2
  linarith

lemma exp_two_mem : 7.38905609 < Real.exp 2 ∧ Real.exp 2 < 7.38905611 := by
  have he2 : Real.exp 2 = Real.exp 1 * Real.exp 1 := by
    rw [← Real.exp_add]; norm_num
  constructor <;> rw [he2] <;>
    nlinarith [Real.exp_one_gt_d9, Real.exp_one_lt_d9, Real.exp_pos 1]

lemma exp_three_mem : 20.0855368 < Real.exp 3 ∧ Real.exp 3 < 20.0855372 := by
  have he3 : Real.exp 3 = Real.exp 2 * Real.exp 1 := by
    rw [← Real.exp_add]; norm_num
  constructor <;> rw [he3] <;>
    nlinarith [exp_two_mem.1, exp_two_mem.2, Real.exp_one_gt_d9, Real.exp_one_lt_d9,
      Real.exp_pos 1, Real.exp_pos 2]

lemma lp1_bounds :
    0.3123 < Real.log (1 + Real.exp (-1)) ∧ Real.log (1 + Real.exp (-1)) < 0.3143 := by
  have hx : (0:ℝ) < 1 + Real.exp (-1) := by positivity
  have hub : Real.exp (-1) < 0.3679 := by
    rw [Real.exp_neg, ← one_div, div_lt_iff (Real.exp_pos 1)]
    nlinarith [Real.exp_one_gt_d9]
  have hlb : (0.36777:ℝ) < Real.exp (-1) := by
    rw [Real.exp_neg, ← one_div, lt_div_iff (Real.exp_pos 1)]
    nlinarith [Real.exp_one_lt_d9]
  constructor
  · rw [Real.lt_log_iff_exp_lt hx]
    nlinarith [exp_taylor4_ub (x := (0.3123:ℝ)) (by norm_num) (by norm_num)]
  · rw [Real.log_lt_iff_lt_exp hx]
    nlinarith [exp_taylor4_lb (x := (0.3143:ℝ)) (by norm_num) (by norm_num)]

lemma lp2_bounds :
    0.1259 < Real.log (1 + Real.exp (-2)) ∧ Real.log (1 + Real.exp (-2)) < 0.1279 := by
  have hx : (0:ℝ) < 1 + Real.exp (-2) := by positivity
  have hub : Real.exp (-2) < 0.13534 := by
    rw [Real.exp_neg, ← one_div, div_lt_iff (Real.exp_pos 2)]
    nlinarith [exp_two_mem.1]
  have hlb : (0.135335:ℝ) < Real.exp (-2) := by
    rw [Real.exp_neg, ← one_div, lt_div_iff (Real.exp_pos 2)]
    nlinarith [exp_two_mem.2]
  constructor
  · rw [Real.lt_log_iff_exp_lt hx]
    nlinarith [exp_taylor4_ub (x := (0.1259:ℝ)) (by norm_num) (by norm_num)]
  · rw [Real.log_lt_iff_lt_exp hx]
    nlinarith [exp_taylor4_lb (x := (0.1279:ℝ)) (by norm_num) (by norm_num)]

lemma lp3_bounds :
    0.0476 < Real.log (1 + Real.exp (-3)) ∧ Real.log (1 + Real.exp (-3)) < 0.0496 := by
  have hx : (0:ℝ) < 1 + Real.exp (-3) := by positivity
  have hub : Real.exp (-3) < 0.0497871 := by
    rw [Real.exp_neg, ← one_div, div_lt_iff (Real.exp_pos 3)]
    nlinarith [exp_three_mem.1]
  have hlb : (0.049787:ℝ) < Real.exp (-3) := by
    rw [Real.exp_neg, ← one_div, lt_div_iff (Real.exp_pos 3)]
    nlinarith [exp_three_mem.2]
  constructor
  · rw [Real.lt_log_iff_exp_lt hx]
    nlinarith [exp_taylor4_ub (x := (0.0476:ℝ)) (by norm_num) (by norm_num)]
  · rw [Real.log_lt_iff_lt_exp hx]
    nlinarith [exp_taylor4_lb (x := (0.0496:ℝ)) (by norm_num) (by norm_num)]

/-- C2: Logistic prediction mode on `mu = [1,2,3]` with no y, no s2 and
width 3 returns the stabilised log sigmoids `-log(1+exp(-mu))` (equal to
`log(sigmoid(mu))`, approximately `[-0.3133, -0.1269, -0.0486]`), the first
moments `2p - 1` with `p = exp(lp)`, and the second moments `4p(1-p)`. -/
theorem claim_C2 :
    Logistic.proceed none [1, 2, 3] none .pred none 3 =
      Except.ok (some [[Logistic.pred_lp 1, Logistic.pred_lp 2, Logistic.pred_lp 3],
        [2 * Real.exp (Logistic.pred_lp 1) - 1, 2 * Real.exp (Logistic.pred_lp 2) - 1,
          2 * Real.exp (Logistic.pred_lp 3) - 1],
        [4 * Real.exp (Logistic.pred_lp 1) * (1 - Real.exp (Logistic.pred_lp 1)),
          4 * Real.exp (Logistic.pred_lp 2) * (1 - Real.exp (Logistic.pred_lp 2)),
          4 * Real.exp (Logistic.pred_lp 3) * (1 - Real.exp (Logistic.pred_lp 3))]]) ∧
    Logistic.pred_lp 1 = Real.log (1 / (1 + Real.exp (-1))) ∧
    Logistic.pred_lp 2 = Real.log (1 / (1 + Real.exp (-2))) ∧
    Logistic.pred_lp 3 = Real.log (1 / (1 + Real.exp (-3))) ∧
    |Logistic.pred_lp 1 - (-0.3133)| < 1 / 1000 ∧
    |Logistic.pred_lp 2 - (-0.1269)| < 1 / 1000 ∧
    |Logistic.pred_lp 3 - (-0.0486)| < 1 / 1000 := by
  refine ⟨?_, ?_, ?_, ?_, ?_, ?_, ?_⟩
  · show Logistic.proceedN (normY [1, 2, 3] none) [1, 2, 3] none .pred none 3 = _
    simp [Logistic.proceedN, normY, s2zero, Logistic.predPack, List.zipWith]
  · rw [Logistic.pred_lp, if_pos (by norm_num), one_div, Real.log_inv]
  · rw [Logistic.pred_lp, if_pos (by norm_num), one_div, Real.log_inv]
  · rw [Logistic.pred_lp, if_pos (by norm_num), one_div, Real.log_inv]
  · rw [Logistic.pred_lp, if_pos (by norm_num), abs_lt]
    constructor <;> nlinarith [lp1_bounds.1, lp1_bounds.2]
  · rw [Logistic.pred_lp, if_pos (by norm_num), abs_lt]
    constructor <;> nlinarith [lp2_bounds.1, lp2_bounds.2]
  · rw [Logistic.pred_lp, if_pos (by norm_num), abs_lt]
    constructor <;> nlinarith [lp3_bounds.1, lp3_bounds.2]

lemma gaussTakeAux (lsig : ℝ) (y : Option Arr) (mu : Arr) (s2 : Option Arr) (mode : InfMode)
    (der : Option ℕ) (k : ℕ) (t1 t2 : List Arr) (hk1 : 1 ≤ k) (hk3 : k ≤ 3)
    (hder : mode = .lap → der = none)
    (h1 : Gauss.proceed lsig y mu s2 mode der k = Except.ok (some t1))
    (h2 : Gauss.proceed lsig y mu s2 mode der (k + 1) = Except.ok (some t2)) :
    t1 = List.take k t2 := by
  cases mode with
  | pred =>
      simp only [Gauss.proceed, Gauss.predMode, Except.ok.injEq, Option.some.injEq] at h1 h2
      rw [← h1, ← h2]
      interval_cases k <;> simp
  | ep =>
      cases der with
      | none =>
          cases y with
          | none => simp [Gauss.proceed, Gauss.epMode] at h1
          | some ys =>
              cases s2 with
              | none => simp [Gauss.proceed, Gauss.epMode] at h1
              | some l =>
                  simp only [Gauss.proceed, Gauss.epMode, Except.ok.injEq,
                    Option.some.injEq] at h1 h2
                  rw [← h1, ← h2]
                  interval_cases k <;> simp
      | some d =>
          cases y with
          | none => simp [Gauss.proceed, Gauss.epDerMode] at h1
          | some ys =>
              cases s2 with
              | none => simp [Gauss.proceed, Gauss.epDerMode] at h1
              | some l =>
                  simp only [Gauss.proceed, Gauss.epDerMode, Except.ok.injEq,
                    Option.some.injEq] at h1 h2
                  rw [← h1, ← h2]
                  interval_cases k <;> simp
  | lap =>
      have hd := hder rfl
      subst hd
      simp only [Gauss.proceed, Gauss.lapMode, gaussLapNoDer, Except.ok.injEq,
        Option.some.injEq] at h1 h2
      rw [← h1, ← h2]
      interval_cases k <;> simp
  | vb => simp [Gauss.proceed] at h1

lemma erfTakeAux (y : Option Arr) (mu : Arr) (s2 : Option Arr) (mode : InfMode)
    (der : Option ℕ) (k : ℕ) (t1 t2 : List Arr) (hk1 : 1 ≤ k) (hk3 : k ≤ 3)
    (h1 : Erf.proceed y mu s2 mode der k = Except.ok (some t1))
    (h2 : Erf.proceed y mu s2 mode der (k + 1) = Except.ok (some t2)) :
    t1 = List.take k t2 := by
  cases mode with
  | pred =>
      simp only [Erf.proceed, Erf.proceedN, Erf.predMode, Except.ok.injEq,
        Option.some.injEq] at h1 h2
      rw [← h1, ← h2]
      interval_cases k <;> simp
  | lap =>
      cases der with
      | none =>
          simp only [Erf.proceed, Erf.proceedN, Except.ok.injEq, Option.some.injEq] at h1 h2
          rw [← h1, ← h2]
          interval_cases k <;> simp
      | some d =>
          simp only [Erf.proceed, Erf.proceedN, Except.ok.injEq, Option.some.injEq] at h1 h2
          rw [← h1, ← h2]
          interval_cases k <;> simp
  | ep =>
      cases der with
      | none =>
          cases s2 with
          | none => simp [Erf.proceed, Erf.proceedN] at h1
          | some l =>
              simp only [Erf.proceed, Erf.proceedN, Except.ok.injEq, Option.some.injEq] at h1 h2
              rw [← h1, ← h2]
              interval_cases k <;> simp
      | some d =>
          simp only [Erf.proceed, Erf.proceedN, Except.ok.injEq, Option.some.injEq] at h1 h2
          rw [← h1, ← h2]
          interval_cases k <;> simp
  | vb => simp [Erf.proceed, Erf.proceedN] at h1

lemma logisticTakeAux (y : Option Arr) (mu : Arr) (s2 : Option Arr) (mode : InfMode)
    (der : Option ℕ) (k : ℕ) (t1 t2 : List Arr) (hk1 : 1 ≤ k) (hk3 : k ≤ 3)
    (hvb : mode ≠ .vb)
    (h1 : Logistic.proceed y mu s2 mode der k = Except.ok (some t1))
    (h2 : Logistic.proceed y mu s2 mode der (k + 1) = Except.ok (some t2)) :
    t1 = List.take k t2 := by
  cases mode with
  | pred =>
      simp only [Logistic.proceed, Logistic.proceedN] at h1 h2
      by_cases hs2 : s2zero s2
      · rw [if_pos hs2] at h1 h2
        simp only [Except.ok.injEq] at h1 h2
        interval_cases k <;>
          (norm_num [Logistic.predPack] at h1 h2; rw [← h1, ← h2]; simp)
      · rw [if_neg hs2] at h1 h2
        cases hep : Logistic.epMode (normY mu y) mu s2 none 1 with
        | error e => rw [hep] at h1; simp at h1
        | ok r =>
            rw [hep] at h1 h2
            simp only [Except.ok.injEq] at h1 h2
            interval_cases k <;>
              (norm_num [Logistic.predPack] at h1 h2; rw [← h1, ← h2]; simp)
  | lap =>
      cases der with
      | none =>
          simp only [Logistic.proceed, Logistic.proceedN, Logistic.lapMode] at h1 h2
          by_cases hl : 1 < (List.zipWith (fun a b => a * b) (normY mu y) mu).length
          · rw [if_pos hl] at h1
            simp at h1
          · rw [if_neg hl] at h1 h2
            simp only [Except.ok.injEq, Option.some.injEq] at h1 h2
            rw [← h1, ← h2]
            interval_cases k <;> simp
      | some d =>
          simp only [Logistic.proceed, Logistic.proceedN, Logistic.lapMode,
            Except.ok.injEq, Option.some.injEq] at h1 h2
          rw [← h1, ← h2]
          interval_cases k <;> simp
  | ep =>
      cases der with
      | none =>
          cases s2 with
          | none => simp [Logistic.proceed, Logistic.proceedN, Logistic.epMode] at h1
          | some l =>
              simp only [Logistic.proceed, Logistic.proceedN, Logistic.epMode] at h1 h2
              by_cases hl : mu.length ≠ 1
              · rw [if_pos hl] at h1
                simp at h1
              · rw [if_neg hl] at h1 h2
                simp only [Except.ok.injEq, Option.some.injEq] at h1 h2
                rw [← h1, ← h2]
                interval_cases k <;> simp
      | some d =>
          simp only [Logistic.proceed, Logistic.proceedN, Logistic.epMode,
            Except.ok.injEq, Option.some.injEq] at h1 h2
          rw [← h1, ← h2]
          interval_cases k <;> simp
  | vb => exact absurd rfl hvb

lemma laplaceTakeAux (lsig : ℝ) (y : Option Arr) (mu : Arr) (s2 : Option Arr) (mode : InfMode)
    (der : Option ℕ) (k : ℕ) (t1 t2 : List Arr) (hk1 : 1 ≤ k) (hk3 : k ≤ 3)
    (hvb : mode ≠ .vb)
    (h1 : Laplace.proceed lsig y mu s2 mode der k = Except.ok (some t1))
    (h2 : Laplace.proceed lsig y mu s2 mode der (k + 1) = Except.ok (some t2)) :
    t1 = List.take k t2 := by
  cases mode with
  | pred =>
      simp only [Laplace.proceed, Laplace.predMode] at h1 h2
      by_cases hs2 : s2zero s2
      · rw [if_pos hs2] at h1 h2
        simp only [Except.ok.injEq, Option.some.injEq] at h1 h2
        rw [← h1, ← h2]
        interval_cases k <;> simp
      · rw [if_neg hs2] at h1 h2
        cases hep : Laplace.epNoDer (Real.exp lsig)
            ((y.getD (List.replicate mu.length 0))) mu (s2.getD []) 1 with
        | error e =>
            rw [hep] at h1
            simp at h1
        | ok r =>
            rw [hep] at h1 h2
            dsimp only at h1 h2
            simp only [Except.ok.injEq, Option.some.injEq] at h1 h2
            rw [← h1, ← h2]
            interval_cases k <;> simp
  | lap =>
      cases der with
      | none =>
          simp only [Laplace.proceed, Laplace.lapMode] at h1 h2
          interval_cases k <;> simp_all
      | some d =>
          simp only [Laplace.proceed, Laplace.lapMode, Except.ok.injEq,
            Option.some.injEq] at h1 h2
          rw [← h1, ← h2]
          interval_cases k <;> simp
  | ep =>
      cases s2 with
      | none => simp [Laplace.proceed] at h1
      | some l =>
          cases der with
          | some d =>
              simp only [Laplace.proceed, Laplace.epDerMode] at h1 h2
              by_cases hg : Reg.gau ∈ Laplace.regsOf (Real.exp lsig)
                  (Laplace.epTriples (y.getD (List.replicate mu.length 0)) mu l)
              · rw [if_pos hg] at h1
                simp at h1
              · rw [if_neg hg] at h1 h2
                simp only [Except.ok.injEq, Option.some.injEq] at h1 h2
                rw [← h1, ← h2]
                interval_cases k <;> simp
          | none =>
              simp only [Laplace.proceed] at h1 h2
              rw [Laplace.epNoDer] at h1 h2
              by_cases hc1 : 0 < (Laplace.likTr (Real.exp lsig)
                    (Laplace.epTriples (y.getD (List.replicate mu.length 0)) mu l)).length ∧
                  (Laplace.likTr (Real.exp lsig)
                    (Laplace.epTriples (y.getD (List.replicate mu.length 0)) mu l)).length < 3
              · rw [if_pos hc1] at h1
                simp at h1
              · rw [if_neg hc1] at h1 h2
                by_cases hc2 : Reg.gau ∈ Laplace.regsOf (Real.exp lsig)
                    (Laplace.epTriples (y.getD (List.replicate mu.length 0)) mu l)
                · rw [if_pos hc2] at h1
                  simp at h1
                · rw [if_neg hc2] at h1 h2
                  by_cases hmid : Reg.mid ∉ Laplace.regsOf (Real.exp lsig)
                      (Laplace.epTriples (y.getD (List.replicate mu.length 0)) mu l)
                  · rw [if_neg (show ¬(k + 1 ≤ 1) by omega), if_pos hmid] at h2
                    simp at h2
                  · by_cases hm1 : (Laplace.midTr (Real.exp lsig)
                        (Laplace.epTriples (y.getD (List.replicate mu.length 0)) mu l)).length ≠ 1
                    · interval_cases k
                      · rw [if_pos (by norm_num)] at h1
                        rw [if_neg (by norm_num), if_neg hmid, if_pos (by norm_num)] at h2
                        simp only [Except.ok.injEq, Option.some.injEq] at h1 h2
                        rw [← h1, ← h2]
                        simp
                      · rw [if_neg (by norm_num), if_neg hmid, if_neg (by norm_num),
                          if_pos hm1] at h2
                        simp at h2
                      · rw [if_neg (by norm_num), if_neg hmid, if_neg (by norm_num),
                          if_pos hm1] at h1
                        simp at h1
                    · interval_cases k
                      · rw [if_pos (by norm_num)] at h1
                        rw [if_neg (by norm_num), if_neg hmid, if_pos (by norm_num)] at h2
                        simp only [Except.ok.injEq, Option.some.injEq] at h1 h2
                        rw [← h1, ← h2]
                        simp
                      · rw [if_neg (by norm_num), if_neg hmid, if_pos (by norm_num)] at h1
                        rw [if_neg (by norm_num), if_neg hmid, if_neg (by norm_num),
                          if_neg hm1] at h2
                        simp only [Except.ok.injEq, Option.some.injEq] at h1 h2
                        rw [← h1, ← h2]
                        simp
                      · rw [if_neg (by norm_num), if_neg hmid, if_neg (by norm_num),
                          if_neg hm1] at h1
                        rw [if_neg (by norm_num), if_neg hmid, if_neg (by norm_num),
                          if_neg hm1] at h2
                        simp only [Except.ok.injEq, Option.some.injEq] at h1 h2
                        rw [← h1, ← h2]
                        simp
  | vb => exact absurd rfl hvb

/-- C5 counterexample: the Logistic VB branch ignores the requested width
and always returns the 2-tuple `(b, z)`, so the width-1 result is not the
first component of the width-2 result: both calls return the same 2-tuple. -/
theorem claim_C5_counterexample :
    Logistic.proceed (some [1]) [1] (some [1]) .vb none 1 =
      Except.ok (some [[1 / 2], [0]]) ∧
    Logistic.proceed (some [1]) [1] (some [1]) .vb none 2 =
      Except.ok (some [[1 / 2], [0]]) ∧
    ([[1 / 2], [0]] : List Arr) ≠ List.take 1 [[1 / 2], [0]] := by
  refine ⟨?_, ?_, by simp⟩ <;>
    · show Logistic.proceedN (normY [1] (some [1])) [1] (some [1]) .vb none _ = _
      norm_num [Logistic.proceedN, normY, signFix, npSign, List.replicate]

/-- C5 (amended): for every likelihood variant, every inference mode except
the Gauss Laplace-derivative mode and the Logistic/Laplace VB branches
(each of which ignores the requested width and returns its fixed 3-tuple
resp. 2-tuple), and every input, if evaluation with requested width k
(1 <= k <= 3) and with width k+1 both succeed, the width-k result tuple is
exactly the first k components of the width-(k+1) result tuple. -/
theorem claim_C5 :
    (∀ (lsig : ℝ) (y : Option Arr) (mu : Arr) (s2 : Option Arr) (mode : InfMode)
      (der : Option ℕ) (k : ℕ) (t1 t2 : List Arr), 1 ≤ k → k ≤ 3 → (mode = .lap → der = none) →
      Gauss.proceed lsig y mu s2 mode der k = Except.ok (some t1) →
      Gauss.proceed lsig y mu s2 mode der (k + 1) = Except.ok (some t2) →
      t1 = List.take k t2) ∧
    (∀ (y : Option Arr) (mu : Arr) (s2 : Option Arr) (mode : InfMode)
      (der : Option ℕ) (k : ℕ) (t1 t2 : List Arr), 1 ≤ k → k ≤ 3 →
      Erf.proceed y mu s2 mode der k = Except.ok (some t1) →
      Erf.proceed y mu s2 mode der (k + 1) = Except.ok (some t2) →
      t1 = List.take k t2) ∧
    (∀ (y : Option Arr) (mu : Arr) (s2 : Option Arr) (mode : InfMode)
      (der : Option ℕ) (k : ℕ) (t1 t2 : List Arr), 1 ≤ k → k ≤ 3 → mode ≠ .vb →
      Logistic.proceed y mu s2 mode der k = Except.ok (some t1) →
      Logistic.proceed y mu s2 mode der (k + 1) = Except.ok (some t2) →
      t1 = List.take k t2) ∧
    (∀ (lsig : ℝ) (y : Option Arr) (mu : Arr) (s2 : Option Arr) (mode : InfMode)
      (der : Option ℕ) (k : ℕ) (t1 t2 : List Arr), 1 ≤ k → k ≤ 3 → mode ≠ .vb →
      Laplace.proceed lsig y mu s2 mode der k = Except.ok (some t1) →
      Laplace.proceed lsig y mu s2 mode der (k + 1) = Except.ok (some t2) →
      t1 = List.take k t2) :=
  ⟨fun lsig y mu s2 mode der k t1 t2 hk1 hk3 hder h1 h2 =>
      gaussTakeAux lsig y mu s2 mode der k t1 t2 hk1 hk3 hder h1 h2,
   fun y mu s2 mode der k t1 t2 hk1 hk3 h1 h2 =>
      erfTakeAux y mu s2 mode der k t1 t2 hk1 hk3 h1 h2,
   fun y mu s2 mode der k t1 t2 hk1 hk3 hvb h1 h2 =>
      logisticTakeAux y mu s2 mode der k t1 t2 hk1 hk3 hvb h1 h2,
   fun lsig y mu s2 mode der k t1 t2 hk1 hk3 hvb h1 h2 =>
      laplaceTakeAux lsig y mu s2 mode der k t1 t2 hk1 hk3 hvb h1 h2⟩

/-- Witness for C5: Gauss prediction mode at a concrete input, widths 1 and
2; the width-1 result is the first component of the width-2 result. -/
theorem claim_C5_witness :
    Gauss.proceed 0 (some [0]) [0] none .pred none 1 =
      Except.ok (some [[gaussExact_lp 1 0 0]]) ∧
    Gauss.proceed 0 (some [0]) [0] none .pred none 2 =
      Except.ok (some [[gaussExact_lp 1 0 0], [0]]) ∧
    [[gaussExact_lp 1 0 0]] = List.take 1 [[gaussExact_lp 1 0 0], [0]] := by
  have h1 : Gauss.proceed 0 (some [0]) [0] none .pred none 1 =
      Except.ok (some [[gaussExact_lp 1 0 0]]) := by
    show Gauss.predMode (Real.exp (2 * 0)) [0] [0] none 1 = _
    norm_num [Gauss.predMode, Gauss.pred_lpArr, s2zero, Real.exp_zero]
  have h2 : Gauss.proceed 0 (some [0]) [0] none .pred none 2 =
      Except.ok (some [[gaussExact_lp 1 0 0], [0]]) := by
    show Gauss.predMode (Real.exp (2 * 0)) [0] [0] none 2 = _
    norm_num [Gauss.predMode, Gauss.pred_lpArr, s2zero, Real.exp_zero]
  exact ⟨h1, h2, claim_C5.1 0 (some [0]) [0] none .pred none 1 _ _ (by norm_num) (by norm_num)
    (fun h => by cases h) h1 h2⟩
